import Mathlib

/-!
Shallow embedding of `drivers/power/powerled.c`, the upper-half character
driver for a high power LED: the reference-counted open/close lifecycle
(`powerled_open`, `powerled_close`), the command dispatcher
(`powerled_ioctl`) and the registration entry point (`powerled_register`).

Machine integers are modelled as `Nat`/`Int` with an explicit `% 256` where
the C `uint8_t` arithmetic can wrap; the C `float` configuration fields are
modelled as `ℚ` (only order comparisons against 0 and 100 are performed on
them). Lower-half operations are external collaborators: they are modelled
by a record of the status values they would return, and every dispatch
additionally reports the list of lower-half operations it invoked.
-/

namespace Powerled

/-- NuttX success status (`OK` from the C headers). -/
def OK : Int := 0

/-- POSIX `errno` value `EPERM` (operation not permitted). -/
def EPERM : Int := 1

/-- POSIX `errno` value `EMFILE` (too many open files). -/
def EMFILE : Int := 24

/-- Modelled from the spec: command identifiers `PWRIOC_*` are defined in the
header `nuttx/power/powerled.h`, which is not under `src/`; the spec says only
that they are stable, distinct identifiers, so they are modelled as distinct
integers. -/
def PWRIOC_START : Int := 1

/-- Command identifier for STOP (see `PWRIOC_START`). -/
def PWRIOC_STOP : Int := 2

/-- Command identifier for SET_MODE (see `PWRIOC_START`). -/
def PWRIOC_SET_MODE : Int := 3

/-- Command identifier for SET_LIMITS (see `PWRIOC_START`). -/
def PWRIOC_SET_LIMITS : Int := 4

/-- Command identifier for GET_STATE (see `PWRIOC_START`). -/
def PWRIOC_GET_STATE : Int := 5

/-- Command identifier for SET_FAULT (see `PWRIOC_START`). -/
def PWRIOC_SET_FAULT : Int := 6

/-- Command identifier for GET_FAULT (see `PWRIOC_START`). -/
def PWRIOC_GET_FAULT : Int := 7

/-- Command identifier for CLEAN_FAULT (see `PWRIOC_START`). -/
def PWRIOC_CLEAN_FAULT : Int := 8

/-- Command identifier for SET_PARAMS (see `PWRIOC_START`). -/
def PWRIOC_SET_PARAMS : Int := 9

/-- Modelled from the spec: the operating mode enum of the missing header is
`enum \x7bCONTINUOUS, FLASH, ...\x7d`; `base` stands for any member other than
the two the dispatcher recognizes. -/
inductive Opmode
  | base
  | continuous
  | flash
  deriving DecidableEq, BEq, Repr

/-- `struct powerled_limits_s`: the current limit and its one-way lock flag. -/
structure LimitsS where
  current : ℚ
  lock : Bool
  deriving DecidableEq, BEq, Repr

/-- `struct powerled_params_s`: lock flag, brightness, frequency and duty. -/
structure ParamsS where
  lock : Bool
  brightness : ℚ
  frequency : ℚ
  duty : ℚ
  deriving DecidableEq, BEq, Repr

/-- The fields of `struct powerled_s` (reached through `dev->priv`) that
`powerled_ioctl` reads: the operating mode, the limits block and the
parameter block (only its lock flag is read). -/
structure PowerledS where
  opmode : Opmode
  limits : LimitsS
  param : ParamsS
  deriving DecidableEq, BEq, Repr

/-- The `unsigned long arg` of an ioctl call. A pointer-valued argument is
modelled by the structure it points to (`limitsRef`, `paramsRef`) or by an
opaque reference (`stateRef`, `faultRef`); a scalar argument is a machine
word. -/
inductive PwrArg
  | word (n : Nat)
  | limitsRef (l : LimitsS)
  | paramsRef (p : ParamsS)
  | stateRef
  | faultRef
  deriving DecidableEq, BEq, Repr

/-- The C cast `(uint8_t)arg`. Casting a pointer-valued argument to a byte is
never exercised by any claim; it is modelled as 0. -/
def PwrArg.u8 : PwrArg → Nat
  | PwrArg.word n => n % 256
  | _ => 0

/-- The C cast `(struct powerled_limits_s *)arg` followed by use of the
pointee. Reinterpreting a non-pointer word is never exercised by any claim;
it is modelled as a zeroed structure. -/
def PwrArg.asLimits : PwrArg → LimitsS
  | PwrArg.limitsRef l => l
  | _ => ⟨0, false⟩

/-- The C cast `(struct powerled_params_s *)arg` followed by use of the
pointee (see `PwrArg.asLimits`). -/
def PwrArg.asParams : PwrArg → ParamsS
  | PwrArg.paramsRef p => p
  | _ => ⟨false, 0, 0, 0⟩

/-- A record of one invocation of a lower-half operation, with the argument
the upper half passed to it. -/
inductive LowerCall
  | setup
  | shutdown
  | start
  | stop
  | mode_set (mode : Nat)
  | limits_set (l : LimitsS)
  | state_get
  | fault_set (f : Nat)
  | fault_get
  | fault_clean (f : Nat)
  | params_set (p : ParamsS)
  | ioctl (cmd : Int) (arg : PwrArg)
  deriving DecidableEq, BEq, Repr

/-- The lower half's operations table (`struct powerled_ops_s`): an external
collaborator, modelled by the status each operation would return for the
argument it receives. -/
structure PowerledOps where
  setup : Int
  shutdown : Int
  start : Int
  stop : Int
  mode_set : Nat → Int
  limits_set : LimitsS → Int
  state_get : Int
  fault_set : Nat → Int
  fault_get : Int
  fault_clean : Nat → Int
  params_set : ParamsS → Int
  ioctl : Int → PwrArg → Int

/-- The status the lower half returns for a recorded invocation. -/
def lowerResult (ops : PowerledOps) : LowerCall → Int
  | LowerCall.setup => ops.setup
  | LowerCall.shutdown => ops.shutdown
  | LowerCall.start => ops.start
  | LowerCall.stop => ops.stop
  | LowerCall.mode_set m => ops.mode_set m
  | LowerCall.limits_set l => ops.limits_set l
  | LowerCall.state_get => ops.state_get
  | LowerCall.fault_set f => ops.fault_set f
  | LowerCall.fault_get => ops.fault_get
  | LowerCall.fault_clean f => ops.fault_clean f
  | LowerCall.params_set p => ops.params_set p
  | LowerCall.ioctl c a => ops.ioctl c a

/-- `powerled_ioctl` (powerled.c:206-386): validates the command against the
control block `powerled` and either rejects with `-EPERM` (invoking nothing)
or delegates to exactly one lower-half operation, returning its status
unchanged. The result pairs the returned status with the list of lower-half
invocations performed. -/
def powerled_ioctl (powerled : PowerledS) (ops : PowerledOps) (cmd : Int)
    (arg : PwrArg) : Int × List LowerCall :=
  if cmd = PWRIOC_START then
    if powerled.limits.lock = false ∨ powerled.limits.current ≤ 0 then
      (-EPERM, [])
    else if powerled.opmode ≠ Opmode.continuous ∧ powerled.opmode ≠ Opmode.flash then
      (-EPERM, [])
    else
      (ops.start, [LowerCall.start])
  else if cmd = PWRIOC_STOP then
    (ops.stop, [LowerCall.stop])
  else if cmd = PWRIOC_SET_MODE then
    (ops.mode_set arg.u8, [LowerCall.mode_set arg.u8])
  else if cmd = PWRIOC_SET_LIMITS then
    if powerled.limits.lock = true then
      (-EPERM, [])
    else
      (ops.limits_set arg.asLimits, [LowerCall.limits_set arg.asLimits])
  else if cmd = PWRIOC_GET_STATE then
    (ops.state_get, [LowerCall.state_get])
  else if cmd = PWRIOC_SET_FAULT then
    (ops.fault_set arg.u8, [LowerCall.fault_set arg.u8])
  else if cmd = PWRIOC_GET_FAULT then
    (ops.fault_get, [LowerCall.fault_get])
  else if cmd = PWRIOC_CLEAN_FAULT then
    (ops.fault_clean arg.u8, [LowerCall.fault_clean arg.u8])
  else if cmd = PWRIOC_SET_PARAMS then
    if powerled.param.lock = true then
      (-EPERM, [])
    else if arg.asParams.brightness < 0 ∨ 100 < arg.asParams.brightness ∨
        arg.asParams.frequency < 0 ∨
        arg.asParams.duty < 0 ∨ 100 < arg.asParams.duty then
      (-EPERM, [])
    else
      (ops.params_set arg.asParams, [LowerCall.params_set arg.asParams])
  else
    (ops.ioctl cmd arg, [LowerCall.ioctl cmd arg])

/-- The fields of `struct powerled_dev_s` that the lifecycle and registration
code touches: the `uint8_t ocount` reference count (kept as a `Nat`, wrapped
explicitly with `% 256` where the C increments it), the `closesem` semaphore
(`some v` = initialized with count `v`, `none` = destroyed or never
initialized) and whether the lower-half handle has been stored. -/
structure DevS where
  ocount : Nat
  closesem : Option Nat
  lowerSet : Bool
  deriving DecidableEq, BEq, Repr

/-- The environment of one open or close call: whether `sem_wait` on
`closesem` succeeds, the `errno` observed when it fails, and the status the
lower half's `setup` would return (ignored by close). -/
structure LifeEnv where
  semWaitOk : Bool
  errno : Int
  setupRet : Int
  deriving DecidableEq, BEq, Repr

/-- A lower-half lifecycle invocation made by open or close. -/
inductive LifeEvent
  | setupCall
  | shutdownCall
  deriving DecidableEq, BEq, Repr

/-- `powerled_open` (powerled.c:98-150). Returns the new device state, the
returned status and the lower-half invocations. The local `ret` (`-errno` on
a failed `sem_wait`, `-EMFILE` when `uint8_t tmp` wraps to 0, the setup
status on first open) is computed but dead: the function ends with
`return OK;` on every path, and the incremented count `tmp` is stored only
in the `tmp == 1` branch after a successful setup. -/
def powerled_open (dev : DevS) (env : LifeEnv) : DevS × Int × List LifeEvent :=
  if env.semWaitOk = false then
    (dev, OK, [])
  else if (dev.ocount + 1) % 256 = 0 then
    (dev, OK, [])
  else if (dev.ocount + 1) % 256 = 1 then
    if env.setupRet = OK then
      ({ dev with ocount := (dev.ocount + 1) % 256 }, OK, [LifeEvent.setupCall])
    else
      (dev, OK, [LifeEvent.setupCall])
  else
    (dev, OK, [])

/-- The value held by the dead local `ret` of `powerled_open` when the
function executes `return OK;` (mirrors powerled.c:103-146 exactly; kept
separate so the discarded error can be stated). -/
def powerled_open_ret (dev : DevS) (env : LifeEnv) : Int :=
  if env.semWaitOk = false then
    -env.errno
  else if (dev.ocount + 1) % 256 = 0 then
    -EMFILE
  else if (dev.ocount + 1) % 256 = 1 then
    env.setupRet
  else
    OK

/-- `powerled_close` (powerled.c:161-200). If the count is greater than 1 it
is decremented; otherwise (count 1 or 0) the count is set to 0 and the lower
half's `shutdown` is invoked. Close returns its `ret` (`-errno` on a failed
`sem_wait`, `OK` otherwise). -/
def powerled_close (dev : DevS) (env : LifeEnv) : DevS × Int × List LifeEvent :=
  if env.semWaitOk = false then
    (dev, -env.errno, [])
  else if dev.ocount > 1 then
    ({ dev with ocount := dev.ocount - 1 }, OK, [])
  else
    ({ dev with ocount := 0 }, OK, [LifeEvent.shutdownCall])

/-- One file operation of a lifecycle trace. -/
inductive FileOp
  | fopen
  | fclose
  deriving DecidableEq, BEq, Repr

/-- The all-success environment: every `sem_wait` succeeds and the lower
half's `setup` returns `OK`. -/
def envAllOk : LifeEnv := ⟨true, 0, OK⟩

/-- Runs a sequence of opens and closes under `envAllOk`, collecting the
lower-half lifecycle invocations in order. -/
def runTrace : DevS → List FileOp → DevS × List LifeEvent
  | dev, [] => (dev, [])
  | dev, op :: rest =>
    let step :=
      match op with
      | FileOp.fopen => powerled_open dev envAllOk
      | FileOp.fclose => powerled_close dev envAllOk
    let next := runTrace step.1 rest
    (next.1, step.2.2 ++ next.2)

/-- A resource action of `powerled_register` on the `closesem` semaphore. -/
inductive RegEvent
  | semInit
  | semDestroy
  deriving DecidableEq, BEq, Repr

/-- `powerled_register` (powerled.c:396-443): sets `ocount` to 0, initializes
`closesem` with count 1, stores the lower-half handle, then calls
`register_driver` (an external collaborator whose status is the input
`regRet`); if that status is negative, `closesem` is destroyed before the
status is returned. The result lists the semaphore actions in order. -/
def powerled_register (_dev : DevS) (regRet : Int) : DevS × Int × List RegEvent :=
  let d1 : DevS := ⟨0, some 1, true⟩
  if regRet < 0 then
    ({ d1 with closesem := none }, regRet, [RegEvent.semInit, RegEvent.semDestroy])
  else
    (d1, regRet, [RegEvent.semInit])

/-- A concrete control block used to instantiate theorems: CONTINUOUS mode,
limits locked at current 1, parameters unlocked. -/
def sampleS : PowerledS := ⟨Opmode.continuous, ⟨1, true⟩, ⟨false, 50, 100, 50⟩⟩

/-- A concrete operations table used to instantiate theorems: every operation
reports a distinctive status so pass-through is visible. -/
def sampleOps : PowerledOps :=
  ⟨11, 12, 13, 14, fun m => 20 + Int.ofNat m, fun _ => 15, 16, fun _ => 17,
   18, fun _ => 19, fun _ => 21, fun c _ => c + 100⟩

/-- Claim C1 (code evaluation at the failing input): on a fresh session with
every guard wait and the lower-half setup succeeding, the sequence
open, open, close, close invokes `setup` once (on the first open) but
`shutdown` twice — on the first close as well as on the second — because the
second open leaves the stored count at 1 (`powerled_open` stores the
incremented count only in its first-open branch), so the first close already
takes the last-closer branch. -/
theorem open_open_close_close_runs_shutdown_twice :
    (runTrace ⟨0, some 1, true⟩
        [FileOp.fopen, FileOp.fopen, FileOp.fclose, FileOp.fclose]).2 =
      [LifeEvent.setupCall, LifeEvent.shutdownCall, LifeEvent.shutdownCall] ∧
    (runTrace ⟨0, some 1, true⟩ [FileOp.fopen, FileOp.fopen]).1.ocount = 1 := by
  decide

/-- Claim C2 (code evaluation at the failing inputs): with the count at 255
the `uint8_t` increment wraps to 0 and the dead local of `powerled_open`
holds `-EMFILE`, and on a failed guard wait (with `errno` 4) it holds `-4`;
yet `powerled_open` returns `OK` in both cases (the count is indeed left
unchanged). -/
theorem open_returns_ok_despite_overflow_and_wait_failure :
    powerled_open_ret ⟨255, some 1, true⟩ envAllOk = -EMFILE ∧
    powerled_open ⟨255, some 1, true⟩ envAllOk = (⟨255, some 1, true⟩, OK, []) ∧
    powerled_open_ret ⟨0, some 1, true⟩ ⟨false, 4, OK⟩ = -4 ∧
    powerled_open ⟨0, some 1, true⟩ ⟨false, 4, OK⟩ = (⟨0, some 1, true⟩, OK, []) := by
  decide

/-- Claim C3: on a first-time open (count 0, guard wait succeeding) whose
lower-half setup returns a non-success status, `setup` is invoked, the count
is left at 0 (the device state is unchanged) and the open still returns
`OK`. -/
theorem open_setup_failure_keeps_count_reports_ok (dev : DevS) (env : LifeEnv)
    (hsem : env.semWaitOk = true) (hcnt : dev.ocount = 0)
    (hsetup : env.setupRet ≠ OK) :
    powerled_open dev env = (dev, OK, [LifeEvent.setupCall]) := by
  simp [powerled_open, hsem, hcnt, hsetup]

/-- Witness for `open_setup_failure_keeps_count_reports_ok` at a fresh device
and a setup that returns -22. -/
theorem open_setup_failure_keeps_count_reports_ok_wit :
    powerled_open ⟨0, some 1, true⟩ ⟨true, 0, -22⟩ =
      (⟨0, some 1, true⟩, OK, [LifeEvent.setupCall]) :=
  open_setup_failure_keeps_count_reports_ok ⟨0, some 1, true⟩ ⟨true, 0, -22⟩
    rfl rfl (by decide)

/-- Claim C10: a close performed while the reference count is 0 (the guard
wait succeeding) takes the last-closer branch: the count is kept at 0 and the
lower half's `shutdown` is invoked — so shutdown can run without a matching
prior setup, and (as the evaluation for C1 shows) more than once per
setup. -/
theorem close_at_count_zero_runs_shutdown (dev : DevS) (env : LifeEnv)
    (hsem : env.semWaitOk = true) (hcnt : dev.ocount = 0) :
    powerled_close dev env = (dev, OK, [LifeEvent.shutdownCall]) := by
  cases dev
  simp_all [powerled_close]

/-- Witness for `close_at_count_zero_runs_shutdown` at a fresh device. -/
theorem close_at_count_zero_runs_shutdown_wit :
    powerled_close ⟨0, some 1, true⟩ envAllOk =
      (⟨0, some 1, true⟩, OK, [LifeEvent.shutdownCall]) :=
  close_at_count_zero_runs_shutdown ⟨0, some 1, true⟩ envAllOk rfl rfl

/-- Claim C9: `powerled_register` always returns the underlying registration
status unchanged, sets the reference count to 0 and stores the lower-half
handle; it initializes the exclusivity guard with count 1 (the semaphore
actions always begin with the initialization), leaves it available when
registration succeeds, and destroys it (after initializing it) before
returning when registration fails. -/
theorem register_initializes_and_releases_on_failure (dev : DevS) (regRet : Int) :
    (powerled_register dev regRet).2.1 = regRet ∧
    (powerled_register dev regRet).1.ocount = 0 ∧
    (powerled_register dev regRet).1.lowerSet = true ∧
    (powerled_register dev regRet).2.2.head? = some RegEvent.semInit ∧
    (0 ≤ regRet →
      (powerled_register dev regRet).1.closesem = some 1 ∧
      (powerled_register dev regRet).2.2 = [RegEvent.semInit]) ∧
    (regRet < 0 →
      (powerled_register dev regRet).1.closesem = none ∧
      (powerled_register dev regRet).2.2 =
        [RegEvent.semInit, RegEvent.semDestroy]) := by
  unfold powerled_register
  by_cases h : regRet < 0
  · simp [h]
  · simp [h]

/-- `powerled_ioctl` at the START command reduces to the START case. -/
theorem ioctl_start_unfold (s : PowerledS) (ops : PowerledOps) (arg : PwrArg) :
    powerled_ioctl s ops PWRIOC_START arg =
      if s.limits.lock = false ∨ s.limits.current ≤ 0 then (-EPERM, [])
      else if s.opmode ≠ Opmode.continuous ∧ s.opmode ≠ Opmode.flash then
        (-EPERM, [])
      else (ops.start, [LowerCall.start]) := rfl

/-- `powerled_ioctl` at the SET_LIMITS command reduces to the SET_LIMITS
case. -/
theorem ioctl_set_limits_unfold (s : PowerledS) (ops : PowerledOps) (arg : PwrArg) :
    powerled_ioctl s ops PWRIOC_SET_LIMITS arg =
      if s.limits.lock = true then (-EPERM, [])
      else (ops.limits_set arg.asLimits, [LowerCall.limits_set arg.asLimits]) := rfl

/-- `powerled_ioctl` at the SET_PARAMS command reduces to the SET_PARAMS
case. -/
theorem ioctl_set_params_unfold (s : PowerledS) (ops : PowerledOps) (arg : PwrArg) :
    powerled_ioctl s ops PWRIOC_SET_PARAMS arg =
      if s.param.lock = true then (-EPERM, [])
      else if arg.asParams.brightness < 0 ∨ 100 < arg.asParams.brightness ∨
          arg.asParams.frequency < 0 ∨
          arg.asParams.duty < 0 ∨ 100 < arg.asParams.duty then (-EPERM, [])
      else (ops.params_set arg.asParams, [LowerCall.params_set arg.asParams]) := rfl

/-- `asParams` of a parameters pointer is the pointee. -/
theorem asParams_paramsRef (p : ParamsS) :
    PwrArg.asParams (PwrArg.paramsRef p) = p := rfl

/-- `asLimits` of a limits pointer is the pointee. -/
theorem asLimits_limitsRef (l : LimitsS) :
    PwrArg.asLimits (PwrArg.limitsRef l) = l := rfl

/-- `powerled_ioctl` at a command outside the recognized set reduces to the
default case. -/
theorem ioctl_unrecognized_unfold (s : PowerledS) (ops : PowerledOps)
    (cmd : Int) (arg : PwrArg)
    (h : cmd ≠ PWRIOC_START ∧ cmd ≠ PWRIOC_STOP ∧ cmd ≠ PWRIOC_SET_MODE ∧
      cmd ≠ PWRIOC_SET_LIMITS ∧ cmd ≠ PWRIOC_GET_STATE ∧
      cmd ≠ PWRIOC_SET_FAULT ∧ cmd ≠ PWRIOC_GET_FAULT ∧
      cmd ≠ PWRIOC_CLEAN_FAULT ∧ cmd ≠ PWRIOC_SET_PARAMS) :
    powerled_ioctl s ops cmd arg =
      (ops.ioctl cmd arg, [LowerCall.ioctl cmd arg]) := by
  obtain ⟨h1, h2, h3, h4, h5, h6, h7, h8, h9⟩ := h
  unfold powerled_ioctl
  rw [if_neg h1, if_neg h2, if_neg h3, if_neg h4, if_neg h5, if_neg h6,
    if_neg h7, if_neg h8, if_neg h9]

/-- Claim C4: the START command is rejected with `-EPERM` and no lower-half
call whenever the limits are not locked, or the current limit is not strictly
positive, or the mode is neither CONTINUOUS nor FLASH; otherwise exactly
`ops.start` is invoked and its status is returned unchanged. -/
theorem ioctl_start_spec (s : PowerledS) (ops : PowerledOps) (arg : PwrArg) :
    ((s.limits.lock = false ∨ s.limits.current ≤ 0 ∨
        (s.opmode ≠ Opmode.continuous ∧ s.opmode ≠ Opmode.flash)) →
      powerled_ioctl s ops PWRIOC_START arg = (-EPERM, [])) ∧
    (s.limits.lock = true → 0 < s.limits.current →
      (s.opmode = Opmode.continuous ∨ s.opmode = Opmode.flash) →
      powerled_ioctl s ops PWRIOC_START arg = (ops.start, [LowerCall.start])) := by
  constructor
  · intro h
    rw [ioctl_start_unfold]
    rcases h with h | h | h
    · rw [if_pos (Or.inl h)]
    · rw [if_pos (Or.inr h)]
    · by_cases h1 : s.limits.lock = false ∨ s.limits.current ≤ 0
      · rw [if_pos h1]
      · rw [if_neg h1, if_pos h]
  · intro hl hc hm
    have hA : ¬(s.limits.lock = false ∨ s.limits.current ≤ 0) := by
      push_neg
      exact ⟨by simp [hl], hc⟩
    have hB : ¬(s.opmode ≠ Opmode.continuous ∧ s.opmode ≠ Opmode.flash) := by
      rcases hm with h | h <;> simp [h]
    rw [ioctl_start_unfold, if_neg hA, if_neg hB]

/-- Witness for `ioctl_start_spec`: with limits locked at current = 1 and
CONTINUOUS mode, START delegates to `ops.start`; with the mode changed to a
non-CONTINUOUS, non-FLASH member it is rejected with `-EPERM` and no
lower-half call. -/
theorem ioctl_start_spec_wit :
    powerled_ioctl sampleS sampleOps PWRIOC_START (PwrArg.word 0) =
      (sampleOps.start, [LowerCall.start]) ∧
    powerled_ioctl ⟨Opmode.base, ⟨1, true⟩, ⟨false, 50, 100, 50⟩⟩ sampleOps
      PWRIOC_START (PwrArg.word 0) = (-EPERM, []) :=
  ⟨(ioctl_start_spec sampleS sampleOps (PwrArg.word 0)).2 rfl (by norm_num [sampleS])
      (Or.inl rfl),
   (ioctl_start_spec ⟨Opmode.base, ⟨1, true⟩, ⟨false, 50, 100, 50⟩⟩ sampleOps
      (PwrArg.word 0)).1 (Or.inr (Or.inr (by decide)))⟩

/-- Claim C5: the SET_PARAMS command is rejected with `-EPERM` and no
lower-half call when the parameter block is locked (for any argument), or
when the supplied brightness is outside [0,100], the frequency is negative,
or the duty is outside [0,100]; when the block is unlocked and the supplied
values are in range, exactly `ops.params_set` is invoked on the supplied
structure and its status returned. In particular brightness 101 is rejected,
while brightness 50, frequency 1000, duty 50 with the lock clear is
delegated. -/
theorem ioctl_set_params_spec (s : PowerledS) (ops : PowerledOps) (p : ParamsS) :
    (∀ arg : PwrArg, s.param.lock = true →
      powerled_ioctl s ops PWRIOC_SET_PARAMS arg = (-EPERM, [])) ∧
    (s.param.lock = false →
      (p.brightness < 0 ∨ 100 < p.brightness ∨ p.frequency < 0 ∨
        p.duty < 0 ∨ 100 < p.duty) →
      powerled_ioctl s ops PWRIOC_SET_PARAMS (PwrArg.paramsRef p) = (-EPERM, [])) ∧
    (s.param.lock = false →
      0 ≤ p.brightness → p.brightness ≤ 100 → 0 ≤ p.frequency →
      0 ≤ p.duty → p.duty ≤ 100 →
      powerled_ioctl s ops PWRIOC_SET_PARAMS (PwrArg.paramsRef p) =
        (ops.params_set p, [LowerCall.params_set p])) ∧
    (s.param.lock = false →
      powerled_ioctl s ops PWRIOC_SET_PARAMS
          (PwrArg.paramsRef ⟨false, 101, 0, 50⟩) = (-EPERM, [])) ∧
    (s.param.lock = false →
      powerled_ioctl s ops PWRIOC_SET_PARAMS
          (PwrArg.paramsRef ⟨false, 50, 1000, 50⟩) =
        (ops.params_set ⟨false, 50, 1000, 50⟩,
         [LowerCall.params_set ⟨false, 50, 1000, 50⟩])) := by
  refine ⟨fun arg hlock => ?_, fun hlock hbad => ?_, fun hlock h1 h2 h3 h4 h5 => ?_,
    fun hlock => ?_, fun hlock => ?_⟩
  · rw [ioctl_set_params_unfold, if_pos hlock]
  · rw [ioctl_set_params_unfold, if_neg (by simp [hlock])]
    rw [if_pos (by simpa [asParams_paramsRef] using hbad)]
  · rw [ioctl_set_params_unfold, if_neg (by simp [hlock])]
    rw [if_neg, asParams_paramsRef]
    simp only [asParams_paramsRef]
    push_neg
    exact ⟨h1, h2, h3, h4, h5⟩
  · rw [ioctl_set_params_unfold, if_neg (by simp [hlock])]
    rw [if_pos (by norm_num [asParams_paramsRef])]
  · rw [ioctl_set_params_unfold, if_neg (by simp [hlock])]
    rw [if_neg (by norm_num [asParams_paramsRef]), asParams_paramsRef]

/-- Witness for `ioctl_set_params_spec`: with an unlocked parameter block,
brightness 101 is rejected and brightness 50, frequency 1000, duty 50 is
delegated to `ops.params_set`. -/
theorem ioctl_set_params_spec_wit :
    powerled_ioctl sampleS sampleOps PWRIOC_SET_PARAMS
        (PwrArg.paramsRef ⟨false, 101, 0, 50⟩) = (-EPERM, []) ∧
    powerled_ioctl sampleS sampleOps PWRIOC_SET_PARAMS
        (PwrArg.paramsRef ⟨false, 50, 1000, 50⟩) =
      (sampleOps.params_set ⟨false, 50, 1000, 50⟩,
       [LowerCall.params_set ⟨false, 50, 1000, 50⟩]) :=
  ⟨(ioctl_set_params_spec sampleS sampleOps ⟨false, 101, 0, 50⟩).2.2.2.1 rfl,
   (ioctl_set_params_spec sampleS sampleOps ⟨false, 50, 1000, 50⟩).2.2.2.2 rfl⟩

/-- Claim C6: the SET_LIMITS command is rejected with `-EPERM` and no
lower-half call exactly when the limits block is already locked; when it is
not locked, exactly `ops.limits_set` is invoked on the supplied structure and
its status returned unchanged. -/
theorem ioctl_set_limits_spec (s : PowerledS) (ops : PowerledOps) (l : LimitsS) :
    (∀ arg : PwrArg, s.limits.lock = true →
      powerled_ioctl s ops PWRIOC_SET_LIMITS arg = (-EPERM, [])) ∧
    (s.limits.lock = false →
      powerled_ioctl s ops PWRIOC_SET_LIMITS (PwrArg.limitsRef l) =
        (ops.limits_set l, [LowerCall.limits_set l])) := by
  constructor
  · intro arg hlock
    rw [ioctl_set_limits_unfold, if_pos hlock]
  · intro hlock
    rw [ioctl_set_limits_unfold, if_neg (by simp [hlock]), asLimits_limitsRef]

/-- Witness for `ioctl_set_limits_spec`: with locked limits SET_LIMITS is
rejected; with unlocked limits it delegates to `ops.limits_set`. -/
theorem ioctl_set_limits_spec_wit :
    powerled_ioctl sampleS sampleOps PWRIOC_SET_LIMITS
        (PwrArg.limitsRef ⟨2, true⟩) = (-EPERM, []) ∧
    powerled_ioctl ⟨Opmode.continuous, ⟨0, false⟩, ⟨false, 50, 100, 50⟩⟩
        sampleOps PWRIOC_SET_LIMITS (PwrArg.limitsRef ⟨2, true⟩) =
      (sampleOps.limits_set ⟨2, true⟩, [LowerCall.limits_set ⟨2, true⟩]) :=
  ⟨(ioctl_set_limits_spec sampleS sampleOps ⟨2, true⟩).1
      (PwrArg.limitsRef ⟨2, true⟩) rfl,
   (ioctl_set_limits_spec ⟨Opmode.continuous, ⟨0, false⟩, ⟨false, 50, 100, 50⟩⟩
      sampleOps ⟨2, true⟩).2 rfl⟩

/-- Claim C7: a command identifier outside the recognized set is forwarded to
the lower half's generic ioctl operation with the command and argument
unmodified, and that operation's result is returned unchanged. -/
theorem ioctl_default_passthrough (s : PowerledS) (ops : PowerledOps)
    (cmd : Int) (arg : PwrArg)
    (h : cmd ≠ PWRIOC_START ∧ cmd ≠ PWRIOC_STOP ∧ cmd ≠ PWRIOC_SET_MODE ∧
      cmd ≠ PWRIOC_SET_LIMITS ∧ cmd ≠ PWRIOC_GET_STATE ∧
      cmd ≠ PWRIOC_SET_FAULT ∧ cmd ≠ PWRIOC_GET_FAULT ∧
      cmd ≠ PWRIOC_CLEAN_FAULT ∧ cmd ≠ PWRIOC_SET_PARAMS) :
    powerled_ioctl s ops cmd arg = (ops.ioctl cmd arg, [LowerCall.ioctl cmd arg]) :=
  ioctl_unrecognized_unfold s ops cmd arg h

/-- Witness for `ioctl_default_passthrough` at the unrecognized command 1234
with a word argument. -/
theorem ioctl_default_passthrough_wit :
    powerled_ioctl sampleS sampleOps 1234 (PwrArg.word 7) =
      (sampleOps.ioctl 1234 (PwrArg.word 7), [LowerCall.ioctl 1234 (PwrArg.word 7)]) :=
  ioctl_default_passthrough sampleS sampleOps 1234 (PwrArg.word 7) (by decide)

/-- Claim C8: every dispatcher-level policy violation (START with limits
unlocked, non-positive current limit or an unsupported mode; SET_LIMITS with
the limits already locked; SET_PARAMS with the parameters already locked or
an out-of-range value) returns `-EPERM` with no lower-half invocation — and
hence no session or lower-half state change; conversely, every dispatch
either invokes nothing or invokes exactly one lower-half operation and
returns that operation's own status verbatim. -/
theorem ioctl_policy_and_propagation (s : PowerledS) (ops : PowerledOps) :
    (∀ arg : PwrArg,
      (s.limits.lock = false ∨ s.limits.current ≤ 0 ∨
        (s.opmode ≠ Opmode.continuous ∧ s.opmode ≠ Opmode.flash)) →
      powerled_ioctl s ops PWRIOC_START arg = (-EPERM, [])) ∧
    (∀ arg : PwrArg, s.limits.lock = true →
      powerled_ioctl s ops PWRIOC_SET_LIMITS arg = (-EPERM, [])) ∧
    (∀ arg : PwrArg, s.param.lock = true →
      powerled_ioctl s ops PWRIOC_SET_PARAMS arg = (-EPERM, [])) ∧
    (∀ p : ParamsS,
      (p.brightness < 0 ∨ 100 < p.brightness ∨ p.frequency < 0 ∨
        p.duty < 0 ∨ 100 < p.duty) →
      powerled_ioctl s ops PWRIOC_SET_PARAMS (PwrArg.paramsRef p) = (-EPERM, [])) ∧
    (∀ (cmd : Int) (arg : PwrArg),
      (powerled_ioctl s ops cmd arg).2 = [] ∨
      ∃ c : LowerCall, powerled_ioctl s ops cmd arg = (lowerResult ops c, [c])) := by
  refine ⟨fun arg h => ?_, fun arg hlock => ?_, fun arg hlock => ?_,
    fun p hbad => ?_, fun cmd arg => ?_⟩
  · rw [ioctl_start_unfold]
    rcases h with h | h | h
    · rw [if_pos (Or.inl h)]
    · rw [if_pos (Or.inr h)]
    · by_cases h1 : s.limits.lock = false ∨ s.limits.current ≤ 0
      · rw [if_pos h1]
      · rw [if_neg h1, if_pos h]
  · rw [ioctl_set_limits_unfold, if_pos hlock]
  · rw [ioctl_set_params_unfold, if_pos hlock]
  · rw [ioctl_set_params_unfold]
    by_cases hlock : s.param.lock = true
    · rw [if_pos hlock]
    · rw [if_neg hlock, if_pos (by simpa [asParams_paramsRef] using hbad)]
  · by_cases hc1 : cmd = PWRIOC_START
    · subst hc1
      rw [ioctl_start_unfold]
      split_ifs
      · exact Or.inl rfl
      · exact Or.inl rfl
      · exact Or.inr ⟨LowerCall.start, rfl⟩
    by_cases hc2 : cmd = PWRIOC_STOP
    · subst hc2
      exact Or.inr ⟨LowerCall.stop, rfl⟩
    by_cases hc3 : cmd = PWRIOC_SET_MODE
    · subst hc3
      exact Or.inr ⟨LowerCall.mode_set arg.u8, rfl⟩
    by_cases hc4 : cmd = PWRIOC_SET_LIMITS
    · subst hc4
      rw [ioctl_set_limits_unfold]
      split_ifs
      · exact Or.inl rfl
      · exact Or.inr ⟨LowerCall.limits_set arg.asLimits, rfl⟩
    by_cases hc5 : cmd = PWRIOC_GET_STATE
    · subst hc5
      exact Or.inr ⟨LowerCall.state_get, rfl⟩
    by_cases hc6 : cmd = PWRIOC_SET_FAULT
    · subst hc6
      exact Or.inr ⟨LowerCall.fault_set arg.u8, rfl⟩
    by_cases hc7 : cmd = PWRIOC_GET_FAULT
    · subst hc7
      exact Or.inr ⟨LowerCall.fault_get, rfl⟩
    by_cases hc8 : cmd = PWRIOC_CLEAN_FAULT
    · subst hc8
      exact Or.inr ⟨LowerCall.fault_clean arg.u8, rfl⟩
    by_cases hc9 : cmd = PWRIOC_SET_PARAMS
    · subst hc9
      rw [ioctl_set_params_unfold]
      split_ifs
      · exact Or.inl rfl
      · exact Or.inl rfl
      · exact Or.inr ⟨LowerCall.params_set arg.asParams, rfl⟩
    refine Or.inr ⟨LowerCall.ioctl cmd arg, ?_⟩
    rw [ioctl_unrecognized_unfold s ops cmd arg
      ⟨hc1, hc2, hc3, hc4, hc5, hc6, hc7, hc8, hc9⟩]
    rfl

/-- Witness for `ioctl_policy_and_propagation`: a START with unlocked limits
is rejected without any lower-half call, and a STOP dispatch returns exactly
the lower half's own stop status. -/
theorem ioctl_policy_and_propagation_wit :
    powerled_ioctl ⟨Opmode.continuous, ⟨0, false⟩, ⟨false, 50, 100, 50⟩⟩
        sampleOps PWRIOC_START (PwrArg.word 0) = (-EPERM, []) ∧
    ((powerled_ioctl sampleS sampleOps PWRIOC_STOP (PwrArg.word 0)).2 = [] ∨
      ∃ c : LowerCall, powerled_ioctl sampleS sampleOps PWRIOC_STOP (PwrArg.word 0) =
        (lowerResult sampleOps c, [c])) :=
  ⟨(ioctl_policy_and_propagation ⟨Opmode.continuous, ⟨0, false⟩,
      ⟨false, 50, 100, 50⟩⟩ sampleOps).1 (PwrArg.word 0) (Or.inl rfl),
   (ioctl_policy_and_propagation sampleS sampleOps).2.2.2.2 PWRIOC_STOP
      (PwrArg.word 0)⟩

end Powerled
